import Mathlib

/-!
Verification of the nest-logger credential-lifecycle polling agent
(`src/extension/background.js`) against its natural-language specification.

The JavaScript service worker is shallowly embedded:
  * JS objects used as string-keyed maps are association lists preserving
    JS `Object.entries` enumeration order (insertion order of the first
    assignment of a key; a re-assignment updates the value in place).
    Vendor bucket keys always contain a `.` so the JS reordering of
    integer-like keys never applies and is not modeled.
  * `chrome.storage.local` and the `chrome.alarms` poll alarm are the
    fields of an explicit `AgentState`, and the handlers (`poll`, the
    `onMessage` listener) are state-transition functions on it.
  * JS numbers appearing in readings are modeled as `ℚ` (all values the
    agent manipulates are small decimals, exactly representable);
    timestamps (`Date.now()`, `new Date(s).getTime()`, ISO strings) are
    epoch milliseconds modeled as `Int`.
  * An absent JS field (`undefined`) is `Option.none`; the JS truthiness
    tests the source performs on strings and flags are modeled explicitly
    (`jsTruthyStr`, `Bool` flag fields defaulting to `false`).
-/

namespace NestLogger

/-- JS `s.startsWith(p)` (both strings ASCII here, so character prefix and
UTF-16 unit prefix agree). -/
def strStartsWith (s p : String) : Bool := p.data.isPrefixOf s.data

/-- JS `s.slice(n)` for `0 ≤ n ≤ s.length` (ASCII strings). -/
def strDrop (s : String) (n : Nat) : String := String.mk (s.data.drop n)

/-- JS truthiness of an optional string: `undefined` and `""` are falsy. -/
def jsTruthyStr : Option String → Bool
  | none => false
  | some s => !(s == "")

/-- JS `a || dflt` for an optional string `a` (falsy: `undefined`, `""`). -/
def jsOrString (v : Option String) (dflt : String) : String :=
  match v with
  | none => dflt
  | some s => if s == "" then dflt else s

/-- JS object assignment `m[k] = v` on a string-keyed object modeled as an
association list: re-assigning an existing key updates it in place (keeping
its enumeration position), a new key is appended at the end. -/
def jsObjectInsert {α : Type} (m : List (String × α)) (k : String) (v : α) :
    List (String × α) :=
  if m.any (fun e => e.1 == k) then
    m.map (fun e => if e.1 == k then (k, v) else e)
  else
    m ++ [(k, v)]

/-- JS object read `m[k]`: `none` is JS `undefined`. -/
def jsObjectGet {α : Type} (m : List (String × α)) (k : String) : Option α :=
  (m.find? (fun e => e.1 == k)).map (fun e => e.2)

/-- One `(where_id, name)` element of a `where.*` bucket's `wheres` array. -/
structure WhereEntry where
  where_id : String
  name : String
deriving DecidableEq, Repr

/-- The dynamically-typed value of one vendor bucket.  Only the fields the
source reads are modeled; a field the vendor omitted is `none` (JS
`undefined`), and the three `hvac_*_state` flags are the JS truthiness of
the raw field (absent = falsy = `false`).  The source's `|| {}` fallback
for a missing paired `device` bucket is the all-default value `{}`. -/
structure BucketValue where
  wheres : Option (List WhereEntry) := none
  associated_rcs_sensors : Option (List String) := none
  active_rcs_sensors : Option (List String) := none
  where_id : Option String := none
  current_temperature : Option ℚ := none
  target_temperature : Option ℚ := none
  target_temperature_type : Option String := none
  hvac_heater_state : Bool := false
  hvac_ac_state : Bool := false
  hvac_fan_state : Bool := false
  current_humidity : Option ℚ := none
  battery_level : Option ℚ := none
deriving DecidableEq, Repr

/-- One element of the `updated_buckets` array of an `app_launch` response. -/
structure Bucket where
  object_key : String
  value : BucketValue
deriving DecidableEq, Repr

/-- An `app_launch` response body; `data.updated_buckets || []` reads the
array, so an absent array is `none`. -/
structure NestData where
  updated_buckets : Option (List Bucket) := none
deriving DecidableEq, Repr

/-- A parsed temperature sensor (source field names kept). -/
structure Sensor where
  serial : String
  room : String
  temperature_c : Option ℚ
  temperature_f : Option ℚ
  battery_level : Option ℚ
  thermostat_serial : Option String
  is_active : Bool
deriving DecidableEq, Repr

/-- A parsed thermostat (source field names kept). -/
structure Thermostat where
  serial : String
  room : String
  current_temperature_c : Option ℚ
  current_temperature_f : Option ℚ
  target_temperature_c : Option ℚ
  target_temperature_f : Option ℚ
  hvac_mode : String
  hvac_action : String
  humidity : Option ℚ
deriving DecidableEq, Repr

/-- A normalized reading; `timestamp` is the capture instant in epoch ms
(the source stores it as an ISO-8601 string and re-reads it with
`new Date(r.timestamp).getTime()`, a lossless round-trip). -/
structure Reading where
  timestamp : Int
  sensors : List Sensor
  thermostats : List Thermostat
deriving DecidableEq, Repr

/-- `RETENTION_DAYS` from the source. -/
def RETENTION_DAYS : Int := 90

/-- `RETENTION_MS = RETENTION_DAYS * 24 * 60 * 60 * 1000` from the source. -/
def RETENTION_MS : Int := RETENTION_DAYS * 24 * 60 * 60 * 1000

/-- JS `Math.round`: nearest integer, halfway cases toward `+∞`,
i.e. `⌊x + 0.5⌋`. -/
def jsRound (q : ℚ) : Int := ⌊q + 1 / 2⌋

/-- `cToF` from the source:
`c == null ? null : Math.round(c * 9 / 5 * 10 + 320) / 10`. -/
def cToF (c : Option ℚ) : Option ℚ :=
  match c with
  | none => none
  | some c => some ((jsRound (c * 9 / 5 * 10 + 320) : ℚ) / 10)

/-- Flattening of `updated_buckets` into the `buckets` object:
`for (const b of data.updated_buckets || []) buckets[b.object_key] = b.value`. -/
def flattenBuckets (bs : List Bucket) : List (String × BucketValue) :=
  bs.foldl (fun m b => jsObjectInsert m b.object_key b.value) []

/-- The room-name table: for every `where.*` bucket, each entry of its
`wheres` array is assigned into the `wheres` object. -/
def buildWheres (buckets : List (String × BucketValue)) : List (String × String) :=
  buckets.foldl
    (fun m e =>
      if strStartsWith e.1 "where." then
        (e.2.wheres.getD []).foldl (fun m w => jsObjectInsert m w.where_id w.name) m
      else m)
    []

/-- The sensor-link table: every `rcs_settings.*` bucket keyed by the
thermostat serial (the key with the type name removed). -/
def buildRcsMap (buckets : List (String × BucketValue)) : List (String × BucketValue) :=
  buckets.foldl
    (fun m e =>
      if strStartsWith e.1 "rcs_settings." then
        jsObjectInsert m (strDrop e.1 "rcs_settings.".length) e.2
      else m)
    []

/-- Room lookup `wheres[where_id] || dflt` (an absent `where_id` indexes the
object at `undefined`, which is absent). -/
def roomName (wheres : List (String × String)) (wid : Option String)
    (dflt : String) : String :=
  jsOrString (wid.bind (fun w => jsObjectGet wheres w)) dflt

/-- The sensor-to-thermostat resolution loop of the source: walk the
sensor-link table in enumeration order, and at the first entry whose
`associated_rcs_sensors` contains this sensor's bucket key, take the
thermostat serial and the `active_rcs_sensors` membership from that same
entry and stop (`break`); no match leaves `(null, false)`. -/
def resolveLink (m : List (String × BucketValue)) (key : String) :
    Option String × Bool :=
  match m with
  | [] => (none, false)
  | e :: rest =>
    if (e.2.associated_rcs_sensors.getD []).contains key then
      (some e.1, (e.2.active_rcs_sensors.getD []).contains key)
    else resolveLink rest key

/-- The `kryptonite.*` loop of `parseNestData` building the sensor list. -/
def parseSensors (buckets : List (String × BucketValue))
    (wheres : List (String × String)) (rcsMap : List (String × BucketValue)) :
    List Sensor :=
  buckets.filterMap (fun e =>
    if strStartsWith e.1 "kryptonite." then
      some { serial := strDrop e.1 "kryptonite.".length
           , room := roomName wheres e.2.where_id "Unknown"
           , temperature_c := e.2.current_temperature
           , temperature_f := cToF e.2.current_temperature
           , battery_level := e.2.battery_level
           , thermostat_serial := (resolveLink rcsMap e.1).1
           , is_active := (resolveLink rcsMap e.1).2 }
    else none)

/-- The `shared.*` loop of `parseNestData` building the thermostat list;
the paired `device.<serial>` bucket falls back to `{}` when absent. -/
def parseThermostats (buckets : List (String × BucketValue))
    (wheres : List (String × String)) : List Thermostat :=
  buckets.filterMap (fun e =>
    if strStartsWith e.1 "shared." then
      let serial := strDrop e.1 "shared.".length
      let deviceVal := (jsObjectGet buckets ("device." ++ serial)).getD {}
      some { serial
           , room := roomName wheres deviceVal.where_id "Thermostat"
           , current_temperature_c := e.2.current_temperature
           , current_temperature_f := cToF e.2.current_temperature
           , target_temperature_c := e.2.target_temperature
           , target_temperature_f := cToF e.2.target_temperature
           , hvac_mode := jsOrString e.2.target_temperature_type "off"
           , hvac_action :=
               if e.2.hvac_heater_state then "heating"
               else if e.2.hvac_ac_state then "cooling"
               else if e.2.hvac_fan_state then "fan"
               else "idle"
           , humidity := e.2.current_humidity }
    else none)

/-- `parseNestData` from the source: flatten the buckets, return `null` on an
empty bucket object, build the room-name and sensor-link tables, parse
sensors and thermostats, return `null` when both lists are empty, otherwise
stamp the reading with the capture time `now` (`new Date().toISOString()`). -/
def parseNestData (now : Int) (data : NestData) : Option Reading :=
  let buckets := flattenBuckets (data.updated_buckets.getD [])
  if buckets.isEmpty then none
  else
    let sensors := parseSensors buckets (buildWheres buckets) (buildRcsMap buckets)
    let thermostats := parseThermostats buckets (buildWheres buckets)
    if sensors.isEmpty && thermostats.isEmpty then none
    else some { timestamp := now, sensors := sensors, thermostats := thermostats }

/-- `storeReading` from the source: push the new reading onto the stored
array, then keep exactly the entries with
`new Date(r.timestamp).getTime() >= Date.now() - RETENTION_MS`. -/
def storeReading (now : Int) (reading : Reading) (readings : List Reading) :
    List Reading :=
  (readings ++ [reading]).filter (fun r => decide (now - RETENTION_MS ≤ r.timestamp))

/-- The credential record the source persists under the `nestCreds` key:
`{ authorization, userId }`. -/
structure Creds where
  authorization : String
  userId : String
deriving DecidableEq, Repr

/-- The durable agent state: the `nestCreds` and `readings` keys of
`chrome.storage.local`, and whether the `nest_poll` periodic alarm
currently exists (`chrome.alarms.create` sets it, `chrome.alarms.clear`
removes it). -/
structure AgentState where
  nestCreds : Option Creds
  alarmArmed : Bool
  readings : List Reading
deriving DecidableEq, Repr

/-- The outcome of the `fetch` call inside `poll`: a rejected promise
(network-level error, the source's `catch` branch), or a response with an
HTTP status and a body that either parses as JSON (`some data`) or not
(`none`, the source's `resp.json()` `catch` branch). -/
inductive FetchResult where
  | networkError
  | response (status : Nat) (body : Option NestData)
deriving DecidableEq, Repr

/-- Whether one `poll` invocation actually issued a request against the
vendor endpoint (it does not when no credential is stored). -/
inductive PollEffect where
  | noRequest
  | requested
deriving DecidableEq, Repr

/-- JS `Response.ok`: status in the range 200–299. -/
def respOk (status : Nat) : Bool := decide (200 ≤ status ∧ status ≤ 299)

/-- The `poll` function of the source as a transition on the durable state,
given the outcome of its `fetch`:
  * no stored credential: warn and return (no request issued);
  * network error: return (the armed alarm is the retry);
  * HTTP 401/403: clear the poll alarm, remove `nestCreds`, request a tab
    reload (an external side effect outside this state), and return;
  * other non-2xx status, unparseable JSON, or a `null` parse: return;
  * success: store the parsed reading. -/
def poll (now : Int) (result : FetchResult) (s : AgentState) :
    AgentState × PollEffect :=
  match s.nestCreds with
  | none => (s, .noRequest)
  | some _ =>
    match result with
    | .networkError => (s, .requested)
    | .response status body =>
      if status = 401 ∨ status = 403 then
        ({ s with alarmArmed := false, nestCreds := none }, .requested)
      else if !respOk status then
        (s, .requested)
      else
        match body with
        | none => (s, .requested)
        | some data =>
          match parseNestData now data with
          | none => (s, .requested)
          | some reading =>
            ({ s with readings := storeReading now reading s.readings }, .requested)

/-- The `creds` field of a relay message; either field may be absent. -/
structure MessageCreds where
  authorization : Option String := none
  userId : Option String := none
deriving DecidableEq, Repr

/-- A `NEST_READING` message from relay.js: an intercepted reading plus
optionally-captured credentials (`message.creds` itself may be absent). -/
structure NestMessage where
  reading : Reading
  creds : Option MessageCreds
deriving DecidableEq, Repr

/-- The `chrome.runtime.onMessage` listener of the source for a
`NEST_READING` message: always store the intercepted reading; then, only
if `creds?.authorization && creds?.userId` is truthy, save the credentials
(`saveCredentials`), re-arm the poll alarm (`armAlarm`: clear then create,
leaving it armed), and trigger one immediate `poll` whose fetch outcome is
the `pollResult` parameter.  Otherwise neither the stored credential nor
the alarm is touched and no poll is triggered. -/
def onMessage (now : Int) (msg : NestMessage) (pollResult : FetchResult)
    (s : AgentState) : AgentState :=
  let s1 := { s with readings := storeReading now msg.reading s.readings }
  match msg.creds with
  | none => s1
  | some c =>
    if jsTruthyStr c.authorization && jsTruthyStr c.userId then
      let s2 := { s1 with
        nestCreds := some { authorization := c.authorization.getD ""
                          , userId := c.userId.getD "" }
        , alarmArmed := true }
      (poll now pollResult s2).1
    else s1

/-- `BUCKET_TYPES` from the source: the fixed allow-list of bucket types the
poll requests. -/
def BUCKET_TYPES : List String :=
  ["buckets", "delayed_topaz", "device", "kryptonite", "link", "rcs_settings",
   "schedule", "shared", "structure", "topaz", "track", "where"]

/-- The JSON body of the poll request. -/
structure PollRequestBody where
  known_bucket_types : List String
  known_bucket_versions : List Nat
deriving DecidableEq, Repr

/-- The options object of the `fetch` call inside `poll`.  `timeout_ms`
models a timeout budget attached to the request via an `AbortSignal`
(`AbortSignal.timeout(ms)`); the source's options object carries no signal
and no timeout, which is modeled as `none`. -/
structure FetchInit where
  method : String
  headers : List (String × String)
  body : PollRequestBody
  timeout_ms : Option Nat
deriving DecidableEq, Repr

/-- The exact request options `poll` passes to `fetch`, built from the
stored credential.  The source sets method, four headers and the body, and
nothing else — in particular no abort signal or timeout. -/
def pollFetchInit (creds : Creds) : FetchInit :=
  { method := "POST"
  , headers := [ ("Authorization", creds.authorization)
               , ("X-nl-user-id", creds.userId)
               , ("X-nl-protocol-version", "1")
               , ("Content-Type", "text/json") ]
  , body := { known_bucket_types := BUCKET_TYPES, known_bucket_versions := [] }
  , timeout_ms := none }

/-- `POLL_ALARM` from the source. -/
def POLL_ALARM : String := "nest_poll"

/-- Scheduler-level events of the alarm/poll timeline: a `chrome.alarms`
onAlarm dispatch carrying the alarm name, or the completion (promise
resolution) of one previously started `poll()` invocation. -/
inductive SchedulerEvent where
  | alarmFired (name : String)
  | pollCompleted
deriving DecidableEq, Repr

/-- Number of in-flight `poll()` invocations after one event, given the
number before it.  The source's listener is
`if (alarm.name === POLL_ALARM) poll();` — it starts a new async `poll()`
on every matching tick, consulting no in-flight guard, so a matching tick
always increments the in-flight count; a completion decrements it. -/
def inFlightAfter (n : Nat) : SchedulerEvent → Nat
  | .alarmFired name => if name == POLL_ALARM then n + 1 else n
  | .pollCompleted => n - 1

/-- In-flight `poll()` count after a whole event trace, starting idle. -/
def traceInFlight (events : List SchedulerEvent) : Nat :=
  events.foldl inFlightAfter 0

/-- A trace is well-formed when every completion event corresponds to a
poll actually outstanding at that point. -/
def validFrom (n : Nat) : List SchedulerEvent → Bool
  | [] => true
  | e :: rest =>
    (if e = SchedulerEvent.pollCompleted then decide (0 < n) else true)
      && validFrom (inFlightAfter n e) rest

/-- Well-formedness of a whole trace from the idle state. -/
def validTrace (events : List SchedulerEvent) : Bool := validFrom 0 events

/-- A minimal snapshot: one `kryptonite` (remote-sensor) bucket whose raw
Celsius temperature is 20.0, and nothing else. -/
def minimalSnapshot : NestData :=
  { updated_buckets := some
      [ { object_key := "kryptonite.S1"
        , value := { current_temperature := some 20 } } ] }

/-- The reading `parseNestData` produces from `minimalSnapshot` at capture
time 0. -/
def minimalReading : Reading :=
  { timestamp := 0
  , sensors := [ { serial := "S1"
                 , room := "Unknown"
                 , temperature_c := some 20
                 , temperature_f := some 68
                 , battery_level := none
                 , thermostat_serial := none
                 , is_active := false } ]
  , thermostats := [] }

/-- A snapshot whose sensor appears in the `associated_rcs_sensors` of two
link-settings buckets (`T1` first, then `T2`), and in the
`active_rcs_sensors` of `T2` only. -/
def linkSnapshot : NestData :=
  { updated_buckets := some
      [ { object_key := "kryptonite.K1"
        , value := { current_temperature := some 20 } }
      , { object_key := "rcs_settings.T1"
        , value := { associated_rcs_sensors := some ["kryptonite.K1"] } }
      , { object_key := "rcs_settings.T2"
        , value := { associated_rcs_sensors := some ["kryptonite.K1"]
                   , active_rcs_sensors := some ["kryptonite.K1"] } } ] }

/-- A sample reading at a given timestamp (one sensor, no thermostats). -/
def readingAt (t : Int) : Reading :=
  { timestamp := t
  , sensors := [ { serial := "S1"
                 , room := "Unknown"
                 , temperature_c := some 20
                 , temperature_f := some 68
                 , battery_level := none
                 , thermostat_serial := none
                 , is_active := false } ]
  , thermostats := [] }

/-- The spec's ordering invariant on the stored history: timestamps are
pairwise nondecreasing along the list. -/
def timestampAscending (l : List Reading) : Prop :=
  l.Pairwise (fun a b => a.timestamp ≤ b.timestamp)

/-- Evaluation of the Celsius-to-Fahrenheit conversion at 20.0 °C. -/
theorem cToF_twenty : cToF (some 20) = some 68 := by
  unfold cToF jsRound
  norm_num

/-- Conversion of an absent raw temperature. -/
theorem cToF_none : cToF none = none := rfl

/-- Evaluation of the parser on the minimal one-sensor snapshot. -/
theorem parse_minimalSnapshot : parseNestData 0 minimalSnapshot = some minimalReading := by
  simp [parseNestData, minimalSnapshot, minimalReading, flattenBuckets, jsObjectInsert,
        buildWheres, buildRcsMap, parseSensors, parseThermostats, resolveLink, roomName,
        jsOrString, jsObjectGet, strStartsWith, strDrop, cToF_twenty, cToF_none]
  decide

/-- C1 counterexample: merging the same Reading (same timestamp) twice does
NOT leave the stored history's length unchanged.  Starting from an empty
store at `now = 0`, two `storeReading` calls with the identical reading
leave 2 entries, not 1: `storeReading` pushes unconditionally and never
checks for an existing entry with the same timestamp. -/
theorem storeReading_same_timestamp_twice_grows :
    (storeReading 0 (readingAt 0) (storeReading 0 (readingAt 0) [])).length = 2 ∧
    (storeReading 0 (readingAt 0) []).length = 1 ∧
    (storeReading 0 (readingAt 0) (storeReading 0 (readingAt 0) [])).length
      ≠ (storeReading 0 (readingAt 0) []).length := by
  refine ⟨by decide, by decide, by decide⟩

/-- C1 (amended): `storeReading` never deduplicates on timestamp — each
merge appends the new Reading and then retention-trims, so merging a
Reading that lies within the retention window twice leaves the retained
part of the prior history plus two copies of that Reading. -/
theorem storeReading_appends_no_dedup (now : Int) (r : Reading) (l : List Reading)
    (h : now - r.timestamp ≤ RETENTION_MS) :
    (storeReading now r (storeReading now r l)).length
      = (l.filter (fun x => decide (now - RETENTION_MS ≤ x.timestamp))).length + 2 := by
  have hp : (decide (now - RETENTION_MS ≤ r.timestamp)) = true := by
    simp only [decide_eq_true_eq]
    omega
  simp [storeReading, List.filter_append, hp, List.filter_filter]
  have h2 : (List.filter (fun a => decide (now ≤ a.timestamp + RETENTION_MS)) [r]) = [r] := by
    have hq : (decide (now ≤ r.timestamp + RETENTION_MS)) = true := by
      simp only [decide_eq_true_eq]
      omega
    simp [hq]
  rw [h2]
  simp

/-- C1 witness: the no-dedup length law applied at `now = 0`, the sample
reading of timestamp 0, and the empty prior history. -/
theorem storeReading_appends_no_dedup_witness :
    (storeReading 0 (readingAt 0) (storeReading 0 (readingAt 0) [])).length
      = (([] : List Reading).filter
          (fun x => decide ((0 : Int) - RETENTION_MS ≤ x.timestamp))).length + 2 :=
  storeReading_appends_no_dedup 0 (readingAt 0) [] (by decide)

/-- C2 counterexample: the stored history is NOT always timestamp-ascending
regardless of insertion order.  Merging a reading with timestamp 2 and then
one with timestamp 1 (both inside the retention window at `now = 2`) leaves
the history in insertion order `[2, 1]`, which is not ascending:
`storeReading` appends at the end and never sorts. -/
theorem storeReading_insertion_order_not_sorted :
    ¬ timestampAscending (storeReading 2 (readingAt 1) (storeReading 2 (readingAt 2) [])) := by
  simp [timestampAscending, storeReading, readingAt, RETENTION_MS, RETENTION_DAYS,
        List.pairwise_cons]

/-- C2 (amended): the stored history preserves insertion order (append then
retention filter), so it is timestamp-ascending after a merge provided it
was ascending before and the merged Reading's timestamp is no smaller than
every stored timestamp (in particular when merges happen in timestamp
order). -/
theorem storeReading_ascending_of_ordered_inserts (now : Int) (r : Reading)
    (l : List Reading) (hl : timestampAscending l)
    (hr : ∀ x ∈ l, x.timestamp ≤ r.timestamp) :
    timestampAscending (storeReading now r l) := by
  unfold timestampAscending storeReading
  refine List.Pairwise.filter _ ?_
  rw [List.pairwise_append]
  refine ⟨hl, by simp, ?_⟩
  intro a ha b hb
  rw [List.mem_singleton] at hb
  subst hb
  exact hr a ha

/-- C2 witness: the ordered-insert law applied at `now = 2` to the history
`[readingAt 1]` and the newer reading `readingAt 2`. -/
theorem storeReading_ascending_of_ordered_inserts_witness :
    timestampAscending (storeReading 2 (readingAt 2) [readingAt 1]) :=
  storeReading_ascending_of_ordered_inserts 2 (readingAt 2) [readingAt 1]
    (by simp [timestampAscending]) (by simp [readingAt])

/-- C7: the retention invariant — immediately after any merge, every stored
Reading satisfies `now - timestamp ≤ RETENTION_MS` (90 days): the filter in
`storeReading` keeps exactly the entries at or after `now - RETENTION_MS`. -/
theorem storeReading_retention_invariant (now : Int) (reading : Reading)
    (l : List Reading) (r : Reading) (h : r ∈ storeReading now reading l) :
    now - r.timestamp ≤ RETENTION_MS := by
  simp only [storeReading, List.mem_filter, decide_eq_true_eq] at h
  omega

/-- C7 witness: the retention invariant applied to the single entry stored
by a merge into the empty history at `now = 0`. -/
theorem storeReading_retention_invariant_witness :
    (0 : Int) - (readingAt 0).timestamp ≤ RETENTION_MS :=
  storeReading_retention_invariant 0 (readingAt 0) [] (readingAt 0)
    (by simp [storeReading, readingAt, RETENTION_MS, RETENTION_DAYS])

/-- Helper: a run of consecutive poll-alarm ticks is a well-formed trace
from any starting in-flight count. -/
theorem validFrom_replicate_tick (k n : Nat) :
    validFrom k (List.replicate n (SchedulerEvent.alarmFired POLL_ALARM)) = true := by
  induction n generalizing k with
  | zero => rfl
  | succ m ih => simpa [List.replicate_succ, validFrom, inFlightAfter] using ih (k + 1)

/-- Helper: each poll-alarm tick raises the in-flight count by one. -/
theorem foldl_inFlightAfter_replicate_tick (k n : Nat) :
    (List.replicate n (SchedulerEvent.alarmFired POLL_ALARM)).foldl inFlightAfter k
      = k + n := by
  induction n generalizing k with
  | zero => rfl
  | succ m ih =>
    simp only [List.replicate_succ, List.foldl_cons, inFlightAfter,
      beq_self_eq_true, if_true]
    rw [ih (k + 1)]
    omega

/-- C3 counterexample: two `nest_poll` alarm ticks with no intervening poll
completion form a well-formed event trace after which two polls are in
flight, so "at most one poll is in flight at any instant" is false: the
alarm listener invokes `poll()` on every matching tick and consults no
single-flight guard. -/
theorem alarm_ticks_not_coalesced :
    validTrace [SchedulerEvent.alarmFired POLL_ALARM,
                SchedulerEvent.alarmFired POLL_ALARM] = true ∧
    traceInFlight [SchedulerEvent.alarmFired POLL_ALARM,
                   SchedulerEvent.alarmFired POLL_ALARM] = 2 ∧
    ¬ (∀ events : List SchedulerEvent, validTrace events = true →
        ∀ pre, List.IsPrefix pre events → traceInFlight pre ≤ 1) := by
  refine ⟨by decide, by decide, fun h => ?_⟩
  have h2 := h [SchedulerEvent.alarmFired POLL_ALARM,
                SchedulerEvent.alarmFired POLL_ALARM] (by decide)
      [SchedulerEvent.alarmFired POLL_ALARM, SchedulerEvent.alarmFired POLL_ALARM]
      (List.prefix_refl _)
  revert h2
  decide

/-- C3 (amended): ticks firing while polls are outstanding are not
coalesced — `n` consecutive poll-alarm ticks with no completions form a
well-formed trace with `n` polls simultaneously in flight, so the in-flight
count is unbounded when polls run slower than the tick interval. -/
theorem alarm_ticks_accumulate_polls (n : Nat) :
    validTrace (List.replicate n (SchedulerEvent.alarmFired POLL_ALARM)) = true ∧
    traceInFlight (List.replicate n (SchedulerEvent.alarmFired POLL_ALARM)) = n := by
  refine ⟨validFrom_replicate_tick 0 n, ?_⟩
  unfold traceInFlight
  rw [foldl_inFlightAfter_replicate_tick 0 n]
  omega

/-- C4 counterexample: the options object `poll` passes to `fetch` carries
no abort signal and no timeout — a poll request does NOT have a bounded
timeout configured by the agent. -/
theorem pollFetchInit_no_timeout :
    (pollFetchInit { authorization := "tok", userId := "uid" }).timeout_ms = none ∧
    (pollFetchInit { authorization := "tok", userId := "uid" }).timeout_ms.isSome = false := by
  exact ⟨rfl, rfl⟩

/-- C4 (amended): the poll request sets no explicit timeout (its fetch
options carry no abort signal, so boundedness is left to the platform); a
request that fails at the network level — which is how a platform-level
timeout surfaces to the `catch` branch — is handled as a transient failure:
`poll` returns with the durable state unchanged (credential and alarm kept),
leaving the periodic alarm as the retry. -/
theorem poll_no_timeout_network_error_transient (now : Int) (s : AgentState)
    (c : Creds) (h : s.nestCreds = some c) :
    (pollFetchInit c).timeout_ms = none ∧
    poll now FetchResult.networkError s = (s, PollEffect.requested) := by
  refine ⟨rfl, ?_⟩
  simp [poll, h]

/-- C4 witness: the transient-classification law applied to a concrete armed
state holding a credential. -/
theorem poll_no_timeout_network_error_transient_witness :
    (pollFetchInit { authorization := "tok", userId := "uid" }).timeout_ms = none ∧
    poll 0 FetchResult.networkError
        { nestCreds := some { authorization := "tok", userId := "uid" }
        , alarmArmed := true, readings := [] }
      = ({ nestCreds := some { authorization := "tok", userId := "uid" }
         , alarmArmed := true, readings := [] }, PollEffect.requested) :=
  poll_no_timeout_network_error_transient 0
    { nestCreds := some { authorization := "tok", userId := "uid" }
    , alarmArmed := true, readings := [] }
    { authorization := "tok", userId := "uid" } rfl

/-- C5: on HTTP 401 or 403 the poll cycle removes the stored credential,
clears the periodic poll alarm (scheduler disarmed), and the dead
credential is never retried: every subsequent poll from the resulting state
returns immediately without issuing a request. -/
theorem poll_auth_expired_clears_and_disarms (now : Int) (status : Nat)
    (body : Option NestData) (s : AgentState) (c : Creds)
    (hc : s.nestCreds = some c) (hstatus : status = 401 ∨ status = 403) :
    (poll now (FetchResult.response status body) s).1.nestCreds = none ∧
    (poll now (FetchResult.response status body) s).1.alarmArmed = false ∧
    ∀ (now2 : Int) (result2 : FetchResult),
      poll now2 result2 (poll now (FetchResult.response status body) s).1
        = ((poll now (FetchResult.response status body) s).1, PollEffect.noRequest) := by
  have h1 : poll now (FetchResult.response status body) s
      = ({ s with alarmArmed := false, nestCreds := none }, PollEffect.requested) := by
    simp [poll, hc, hstatus]
  rw [h1]
  exact ⟨rfl, rfl, fun now2 result2 => rfl⟩

/-- C5 witness: the auth-expiry law applied to a concrete armed state and an
HTTP 401 response. -/
theorem poll_auth_expired_clears_and_disarms_witness :
    (poll 0 (FetchResult.response 401 none)
        { nestCreds := some { authorization := "tok", userId := "uid" }
        , alarmArmed := true, readings := [] }).1.nestCreds = none ∧
    (poll 0 (FetchResult.response 401 none)
        { nestCreds := some { authorization := "tok", userId := "uid" }
        , alarmArmed := true, readings := [] }).1.alarmArmed = false ∧
    ∀ (now2 : Int) (result2 : FetchResult),
      poll now2 result2
          (poll 0 (FetchResult.response 401 none)
            { nestCreds := some { authorization := "tok", userId := "uid" }
            , alarmArmed := true, readings := [] }).1
        = ((poll 0 (FetchResult.response 401 none)
            { nestCreds := some { authorization := "tok", userId := "uid" }
            , alarmArmed := true, readings := [] }).1, PollEffect.noRequest) :=
  poll_auth_expired_clears_and_disarms 0 401 none
    { nestCreds := some { authorization := "tok", userId := "uid" }
    , alarmArmed := true, readings := [] }
    { authorization := "tok", userId := "uid" } rfl (Or.inl rfl)

/-- Helper: evaluation of the parser on the two-link-settings snapshot — the
sensor's link fields come from the first matching `rcs_settings` entry
(`T1`), including its `active_rcs_sensors` membership, even though the
later entry `T2` also matches and lists the sensor as active. -/
theorem parse_linkSnapshot_links :
    (parseNestData 0 linkSnapshot).map
      (fun r => r.sensors.map (fun s => (s.thermostat_serial, s.is_active)))
      = some [(some "T1", false)] := by
  simp [parseNestData, linkSnapshot, flattenBuckets, jsObjectInsert,
        buildWheres, buildRcsMap, parseSensors, parseThermostats, resolveLink, roomName,
        jsOrString, jsObjectGet, strStartsWith, strDrop, cToF_twenty, cToF_none]
  decide

/-- C6: the parser never produces an empty-but-valid Reading — whenever
`parseNestData` returns a Reading, its sensor list and thermostat list are
not both empty (a snapshot with no buckets, or with no relevant bucket
types, yields the failure value `none` instead). -/
theorem parseNestData_no_empty_reading (now : Int) (data : NestData) (r : Reading)
    (h : parseNestData now data = some r) :
    ¬ (r.sensors = [] ∧ r.thermostats = []) := by
  simp only [parseNestData] at h
  split at h
  · exact absurd h (by simp)
  · split at h
    · exact absurd h (by simp)
    · rename_i hne
      rw [Option.some_inj] at h
      subst h
      intro hc
      apply hne
      rw [Bool.and_eq_true, List.isEmpty_iff, List.isEmpty_iff]
      exact hc

/-- C6 witness: the non-emptiness law applied to the reading the parser
produces from the minimal one-sensor snapshot. -/
theorem parseNestData_no_empty_reading_witness :
    ¬ (minimalReading.sensors = [] ∧ minimalReading.thermostats = []) :=
  parseNestData_no_empty_reading 0 minimalSnapshot minimalReading parse_minimalSnapshot

/-- C8: a relay message whose credential object lacks the `authorization`
field or the `userId` field (or carries no credential object at all) leaves
the persisted credential exactly as it was and does not touch the poll
alarm — the listener saves credentials and re-arms only when both fields
are (truthily) present. -/
theorem onMessage_missing_cred_field_preserves (now : Int) (msg : NestMessage)
    (pollResult : FetchResult) (s : AgentState)
    (h : msg.creds = none ∨
         ∃ c, msg.creds = some c ∧ (c.authorization = none ∨ c.userId = none)) :
    (onMessage now msg pollResult s).nestCreds = s.nestCreds ∧
    (onMessage now msg pollResult s).alarmArmed = s.alarmArmed := by
  rcases h with h | ⟨c, hc, hf | hf⟩
  · simp [onMessage, h]
  · simp [onMessage, hc, hf, jsTruthyStr]
  · simp [onMessage, hc, hf, jsTruthyStr]

/-- C8 witness: the frame law applied to a message carrying a `userId` but
no `authorization`, against a state already holding a valid credential with
an armed alarm. -/
theorem onMessage_missing_cred_field_preserves_witness :
    (onMessage 0
        { reading := readingAt 0
        , creds := some { authorization := none, userId := some "uid" } }
        FetchResult.networkError
        { nestCreds := some { authorization := "tok", userId := "uid" }
        , alarmArmed := true, readings := [] }).nestCreds
      = some { authorization := "tok", userId := "uid" } ∧
    (onMessage 0
        { reading := readingAt 0
        , creds := some { authorization := none, userId := some "uid" } }
        FetchResult.networkError
        { nestCreds := some { authorization := "tok", userId := "uid" }
        , alarmArmed := true, readings := [] }).alarmArmed = true :=
  onMessage_missing_cred_field_preserves 0
    { reading := readingAt 0
    , creds := some { authorization := none, userId := some "uid" } }
    FetchResult.networkError
    { nestCreds := some { authorization := "tok", userId := "uid" }
    , alarmArmed := true, readings := [] }
    (Or.inr ⟨{ authorization := none, userId := some "uid" }, rfl, Or.inl rfl⟩)

/-- C9: the parser's Celsius-to-Fahrenheit conversion of every non-null raw
temperature is `round(c × 9/5 × 10 + 320) / 10` (one-decimal rounding,
`round` = nearest integer with halves up), and on the minimal snapshot with
one remote-sensor bucket at `current_temperature = 20.0` the parsed Sensor
has `temperature_f = 68.0`. -/
theorem cToF_matches_spec_rounding :
    (∀ c : ℚ, cToF (some c) = some (((round (c * 9 / 5 * 10 + 320) : ℤ) : ℚ) / 10)) ∧
    parseNestData 0 minimalSnapshot = some minimalReading ∧
    minimalReading.sensors.map Sensor.temperature_f = [some 68] := by
  refine ⟨fun c => ?_, parse_minimalSnapshot, rfl⟩
  unfold cToF jsRound
  rw [round_eq]

/-- C10: sensor-to-thermostat link resolution returns, for the first
link-settings entry whose associated-sensor set contains the sensor's
bucket key, that entry's serial and that same entry's active-set
membership (first match wins, both fields from one entry); with no matching
entry it returns `(none, false)`.  Concretely: with two matching entries
`T1` (inactive) then `T2` (active), the parsed sensor reports
`(some "T1", false)`; with no link-settings bucket it reports
`(none, false)`. -/
theorem resolveLink_first_match :
    (∀ (m : List (String × BucketValue)) (key : String),
      resolveLink m key
        = match m.find? (fun e => (e.2.associated_rcs_sensors.getD []).contains key) with
          | some e => (some e.1, (e.2.active_rcs_sensors.getD []).contains key)
          | none => (none, false)) ∧
    (parseNestData 0 linkSnapshot).map
      (fun r => r.sensors.map (fun s => (s.thermostat_serial, s.is_active)))
      = some [(some "T1", false)] ∧
    (parseNestData 0 minimalSnapshot).map
      (fun r => r.sensors.map (fun s => (s.thermostat_serial, s.is_active)))
      = some [(none, false)] := by
  refine ⟨fun m key => ?_, parse_linkSnapshot_links, ?_⟩
  · induction m with
    | nil => rfl
    | cons e rest ih =>
      by_cases hc : (e.2.associated_rcs_sensors.getD []).contains key = true
      · have hm : key ∈ e.2.associated_rcs_sensors.getD [] := by simpa using hc
        simp [resolveLink, List.find?, hm]
      · have hm : key ∉ e.2.associated_rcs_sensors.getD [] := by simpa using hc
        simp [resolveLink, List.find?, hm, ih]
  · rw [parse_minimalSnapshot]
    rfl

end NestLogger
